import Mathlib

/-!
Shallow embedding of `homework.py`, a fitness-tracker calculation module.

Python numbers (ints and floats) are modelled as exact rationals `ℚ`;
the numeric literals of the source (0.65, 1.79, ...) denote the same
rational constants here.  Python exceptions are modelled with
`Except PyError`: Python raises `ZeroDivisionError` on division by a
zero denominator, so division whose denominator is a runtime value is
the fallible `pydiv`; division by the nonzero class constants
`M_IN_KM = 1000` and `CM_IN_M = 100` can never raise and is plain `/`.
The class hierarchy (`Training` with subclasses `Running`,
`SportsWalking`, `Swimming`) is modelled as an inductive `TrainingObj`
whose constructor is the runtime class, so that the source's dynamic
dispatch on `LEN_STEP`, `get_mean_speed` and `get_spent_calories`
becomes a match on the constructor.
-/

/-- Python exceptions raised by the module. -/
inductive PyError where
  | zeroDivisionError : PyError
  | notImplementedError (msg : String) : PyError
  | valueError (msg : String) : PyError
  | typeError (msg : String) : PyError
deriving DecidableEq, Repr

/-- Python `/`: raises `ZeroDivisionError` when the denominator is zero. -/
def pydiv (a b : ℚ) : Except PyError ℚ :=
  if b = 0 then .error .zeroDivisionError else .ok (a / b)

/-- Fields of the base class `Training` (`__init__`: action, duration, weight).
Python does not enforce the `int` annotation on `action`, so all three are
modelled as rationals. -/
structure Training where
  action : ℚ
  duration : ℚ
  weight : ℚ
deriving DecidableEq, Repr

/-- Fields of `SportsWalking`: the base fields plus `height` (cm). -/
structure SportsWalking extends Training where
  height : ℚ
deriving DecidableEq, Repr

/-- Fields of `Swimming`: the base fields plus `length_pool` and `count_pool`. -/
structure Swimming extends Training where
  length_pool : ℚ
  count_pool : ℚ
deriving DecidableEq, Repr

/-- A runtime object of the hierarchy: its constructor is its runtime class. -/
inductive TrainingObj where
  | training (t : Training)
  | running (t : Training)
  | sportsWalking (t : SportsWalking)
  | swimming (t : Swimming)
deriving DecidableEq, Repr

namespace TrainingObj

/-- Class constant `Training.M_IN_KM = 1000`. -/
def M_IN_KM : ℚ := 1000

/-- Class constant `Training.MIN_IN_H = 60`. -/
def MIN_IN_H : ℚ := 60

/-- The base fields of the object, whichever class it is. -/
def base : TrainingObj → Training
  | training t => t
  | running t => t
  | sportsWalking t => t.toTraining
  | swimming t => t.toTraining

/-- `self.__class__.__name__`. -/
def className : TrainingObj → String
  | training _ => "Training"
  | running _ => "Running"
  | sportsWalking _ => "SportsWalking"
  | swimming _ => "Swimming"

/-- `self.LEN_STEP`: 0.65 on `Training` (inherited by `Running` and
`SportsWalking`), overridden to 1.38 on `Swimming`. -/
def LEN_STEP : TrainingObj → ℚ
  | swimming _ => 1.38
  | _ => 0.65

/-- `Training.get_distance`: `self.action * self.LEN_STEP / self.M_IN_KM`.
The denominator is the constant 1000, so this never raises. -/
def get_distance (o : TrainingObj) : ℚ :=
  o.base.action * o.LEN_STEP / M_IN_KM

/-- `get_mean_speed`: the base method is `self.get_distance() / self.duration`;
`Swimming` overrides it with
`self.length_pool * self.count_pool / self.M_IN_KM / self.duration`. -/
def get_mean_speed (o : TrainingObj) : Except PyError ℚ :=
  match o with
  | swimming s => pydiv (s.length_pool * s.count_pool / M_IN_KM) s.duration
  | _ => pydiv o.get_distance o.base.duration

/-- `get_spent_calories`: raises `NotImplementedError` on the base class;
each subclass overrides it with its own formula. -/
def get_spent_calories (o : TrainingObj) : Except PyError ℚ :=
  match o with
  | training _ =>
      .error (.notImplementedError
        ("In class \"Training\" is not implemented method " ++
         "\"get_spent_calories\""))
  | running t => do
      let ms ← (running t).get_mean_speed
      pure ((18 * ms + 1.79) * t.weight / M_IN_KM * (t.duration * MIN_IN_H))
  | sportsWalking t => do
      let ms ← (sportsWalking t).get_mean_speed
      let q ← pydiv ((ms * 0.278) ^ 2) (t.height / 100)
      pure ((0.035 * t.weight + q * 0.029 * t.weight)
            * (t.duration * MIN_IN_H))
  | swimming t => do
      let ms ← (swimming t).get_mean_speed
      pure ((ms + 1.1) * 2 * t.weight * t.duration)

end TrainingObj

/-- The dataclass `InfoMessage`: the five data fields of a summary record. -/
structure InfoMessage where
  training_type : String
  duration : ℚ
  distance : ℚ
  speed : ℚ
  calories : ℚ
deriving DecidableEq, Repr

namespace TrainingObj

/-- `Training.show_training_info`: builds an `InfoMessage` from the class
name, the stored duration and the three computed quantities. -/
def show_training_info (o : TrainingObj) : Except PyError InfoMessage := do
  let d := o.get_distance
  let ms ← o.get_mean_speed
  let c ← o.get_spent_calories
  pure ⟨o.className, o.base.duration, d, ms, c⟩

/-- `show_training_info` in state-passing form: the method only reads
attributes of `self` and assigns none, so the post-state it returns is the
receiver unchanged. -/
def show_training_info_st (o : TrainingObj) :
    Except PyError (InfoMessage × TrainingObj) :=
  o.show_training_info.map (fun i => (i, o))

end TrainingObj

/-- `read_package`: looks the workout code up in
`{'WLK': SportsWalking, 'RUN': Running, 'SWM': Swimming}` and constructs the
class by positionally unpacking `data` into its `__init__`; an absent code
raises `ValueError`.  Unpacking a list whose length does not match the
constructor arity raises a Python `TypeError` (its message text is not
modelled). -/
def read_package (workout_type : String) (data : List ℚ) :
    Except PyError TrainingObj :=
  if workout_type = "WLK" then
    match data with
    | [a, d, w, h] => .ok (.sportsWalking ⟨⟨a, d, w⟩, h⟩)
    | _ => .error (.typeError "wrong number of constructor arguments")
  else if workout_type = "RUN" then
    match data with
    | [a, d, w] => .ok (.running ⟨a, d, w⟩)
    | _ => .error (.typeError "wrong number of constructor arguments")
  else if workout_type = "SWM" then
    match data with
    | [a, d, w, lp, cp] => .ok (.swimming ⟨⟨a, d, w⟩, lp, cp⟩)
    | _ => .error (.typeError "wrong number of constructor arguments")
  else
    .error (.valueError
      ("Unknown type of training \"" ++ workout_type ++ "\""))

open TrainingObj

/-- C1: for every calculator constructed with action count `a`, `get_distance`
returns `a * stepLength / 1000`, with step length 0.65 for `Running` and
`SportsWalking` instances and 1.38 for `Swimming` instances. -/
theorem claim_C1_distance (a d w h lp cp : ℚ) :
    get_distance (.running ⟨a, d, w⟩) = a * 0.65 / 1000 ∧
    get_distance (.sportsWalking ⟨⟨a, d, w⟩, h⟩) = a * 0.65 / 1000 ∧
    get_distance (.swimming ⟨⟨a, d, w⟩, lp, cp⟩) = a * 1.38 / 1000 := by
  refine ⟨?_, ?_, ?_⟩ <;> simp [get_distance, LEN_STEP, base, M_IN_KM]

/-- C2: for every `Running` instance with nonzero duration,
`get_spent_calories` returns
`(18 * meanSpeed + 1.79) * weight / 1000 * (duration * 60)` where the mean
speed is `get_distance / duration`. -/
theorem claim_C2_running_calories (a d w : ℚ) (hd : d ≠ 0) :
    get_spent_calories (.running ⟨a, d, w⟩) =
      .ok ((18 * (get_distance (.running ⟨a, d, w⟩) / d) + 1.79)
           * w / 1000 * (d * 60)) := by
  simp [get_spent_calories, get_mean_speed, pydiv, hd, base, M_IN_KM, MIN_IN_H]

/-- C2 witness at `Running ⟨0, 1, 0⟩`. -/
theorem claim_C2_witness :
    (1 : ℚ) ≠ 0 ∧
    get_spent_calories (.running ⟨0, 1, 0⟩) =
      .ok ((18 * (get_distance (.running ⟨0, 1, 0⟩) / 1) + 1.79)
           * 0 / 1000 * (1 * 60)) :=
  ⟨one_ne_zero, claim_C2_running_calories 0 1 0 one_ne_zero⟩

/-- C3: for every `SportsWalking` instance with nonzero duration and nonzero
height, `get_spent_calories` returns
`(0.035*weight + ((meanSpeed*0.278)^2 / (height/100)) * 0.029 * weight) *
(duration*60)`. -/
theorem claim_C3_walking_calories (a d w h : ℚ) (hd : d ≠ 0) (hh : h ≠ 0) :
    get_spent_calories (.sportsWalking ⟨⟨a, d, w⟩, h⟩) =
      .ok ((0.035 * w
            + ((get_distance (.sportsWalking ⟨⟨a, d, w⟩, h⟩) / d * 0.278) ^ 2
               / (h / 100)) * 0.029 * w)
           * (d * 60)) := by
  have h100 : h / 100 ≠ (0 : ℚ) := div_ne_zero hh (by norm_num)
  simp [get_spent_calories, get_mean_speed, pydiv, hd, h100, base, M_IN_KM,
    MIN_IN_H, Bind.bind, Except.bind, Pure.pure, Except.pure]

/-- C3 witness at `SportsWalking ⟨⟨0, 1, 0⟩, 1⟩`. -/
theorem claim_C3_witness :
    (1 : ℚ) ≠ 0 ∧
    get_spent_calories (.sportsWalking ⟨⟨0, 1, 0⟩, 1⟩) =
      .ok ((0.035 * 0
            + ((get_distance (.sportsWalking ⟨⟨0, 1, 0⟩, 1⟩) / 1 * 0.278) ^ 2
               / (1 / 100)) * 0.029 * 0)
           * (1 * 60)) :=
  ⟨one_ne_zero, claim_C3_walking_calories 0 1 0 1 one_ne_zero one_ne_zero⟩

/-- C4: for every `Swimming` instance with nonzero duration, `get_mean_speed`
returns `length_pool * count_pool / 1000 / duration`, and two `Swimming`
instances agreeing on pool length, lengths count and duration but differing
in action count (and weight) have equal mean speeds. -/
theorem claim_C4_swimming_speed (a a2 d w w2 lp cp : ℚ) (hd : d ≠ 0) :
    get_mean_speed (.swimming ⟨⟨a, d, w⟩, lp, cp⟩) =
      .ok (lp * cp / 1000 / d) ∧
    get_mean_speed (.swimming ⟨⟨a, d, w⟩, lp, cp⟩) =
      get_mean_speed (.swimming ⟨⟨a2, d, w2⟩, lp, cp⟩) := by
  refine ⟨?_, ?_⟩ <;> simp [get_mean_speed, pydiv, hd, M_IN_KM]

/-- C4 witness at `Swimming ⟨⟨0, 1, 0⟩, 0, 0⟩` versus action count 1. -/
theorem claim_C4_witness :
    (1 : ℚ) ≠ 0 ∧
    (get_mean_speed (.swimming ⟨⟨0, 1, 0⟩, 0, 0⟩) =
       .ok (0 * 0 / 1000 / 1) ∧
     get_mean_speed (.swimming ⟨⟨0, 1, 0⟩, 0, 0⟩) =
       get_mean_speed (.swimming ⟨⟨1, 1, 0⟩, 0, 0⟩)) :=
  ⟨one_ne_zero, claim_C4_swimming_speed 0 1 1 0 0 0 0 one_ne_zero⟩

/-- C5: for every `Swimming` instance with nonzero duration,
`get_spent_calories` returns `(meanSpeed + 1.1) * 2 * weight * duration` with
the overridden mean speed `length_pool * count_pool / 1000 / duration`. -/
theorem claim_C5_swimming_calories (a d w lp cp : ℚ) (hd : d ≠ 0) :
    get_spent_calories (.swimming ⟨⟨a, d, w⟩, lp, cp⟩) =
      .ok ((lp * cp / 1000 / d + 1.1) * 2 * w * d) := by
  simp [get_spent_calories, get_mean_speed, pydiv, hd, M_IN_KM]

/-- C5 witness at `Swimming ⟨⟨0, 1, 0⟩, 0, 0⟩`. -/
theorem claim_C5_witness :
    (1 : ℚ) ≠ 0 ∧
    get_spent_calories (.swimming ⟨⟨0, 1, 0⟩, 0, 0⟩) =
      .ok ((0 * 0 / 1000 / 1 + 1.1) * 2 * 0 * 1) :=
  ⟨one_ne_zero, claim_C5_swimming_calories 0 1 0 0 0 one_ne_zero⟩

/-- C6: each of the three valid codes makes `read_package` return a
calculator whose runtime class matches the code, built by positionally
unpacking the values; any other code raises a `ValueError` whose message
contains the offending code. -/
theorem claim_C6_factory (code : String) (data : List ℚ) :
    (code = "RUN" → ∀ a d w : ℚ, data = [a, d, w] →
       read_package code data = .ok (.running ⟨a, d, w⟩)) ∧
    (code = "WLK" → ∀ a d w h : ℚ, data = [a, d, w, h] →
       read_package code data = .ok (.sportsWalking ⟨⟨a, d, w⟩, h⟩)) ∧
    (code = "SWM" → ∀ a d w lp cp : ℚ, data = [a, d, w, lp, cp] →
       read_package code data = .ok (.swimming ⟨⟨a, d, w⟩, lp, cp⟩)) ∧
    (code ≠ "RUN" → code ≠ "WLK" → code ≠ "SWM" →
       ∃ pre post : String,
         read_package code data = .error (.valueError (pre ++ code ++ post))) := by
  refine ⟨?_, ?_, ?_, ?_⟩
  · rintro rfl a d w rfl
    simp [read_package]
  · rintro rfl a d w h rfl
    simp [read_package]
  · rintro rfl a d w lp cp rfl
    simp [read_package]
  · intro h1 h2 h3
    refine ⟨"Unknown type of training \"", "\"", ?_⟩
    simp [read_package, h1, h2, h3]

/-- C6 witness: the code "RUN" with a three-value list, and the invalid
code "XYZ". -/
theorem claim_C6_witness :
    read_package "RUN" [15000, 1, 75] = .ok (.running ⟨15000, 1, 75⟩) ∧
    ∃ pre post : String,
      read_package "XYZ" [] = .error (.valueError (pre ++ "XYZ" ++ post)) :=
  ⟨(claim_C6_factory "RUN" [15000, 1, 75]).1 rfl 15000 1 75 rfl,
   (claim_C6_factory "XYZ" []).2.2.2 (by decide) (by decide) (by decide)⟩

/-- C7 counterexample: the claim says a zero duration (resp. zero walking
height) propagates a non-finite numeric result rather than raising; in fact
Python raises, so at duration 0 `get_mean_speed` is a raised
`ZeroDivisionError`, not an `Except.ok` value, and likewise
`get_spent_calories` at height 0. -/
theorem claim_C7_counterexample :
    get_mean_speed (.running ⟨15000, 0, 75⟩) = .error .zeroDivisionError ∧
    (get_mean_speed (.running ⟨15000, 0, 75⟩)).isOk = false ∧
    get_spent_calories (.sportsWalking ⟨⟨9000, 1, 75⟩, 0⟩) =
      .error .zeroDivisionError ∧
    (get_spent_calories (.sportsWalking ⟨⟨9000, 1, 75⟩, 0⟩)).isOk = false := by
  refine ⟨?_, ?_, ?_, ?_⟩ <;>
    simp [get_mean_speed, get_spent_calories, pydiv, base, Bind.bind,
      Except.bind, Except.isOk, Except.toBool, M_IN_KM]

/-- C7 amended: on every calculator with duration 0, `get_mean_speed` raises
`ZeroDivisionError` (it does not return a numeric result), and on every
`SportsWalking` calculator with height 0, `get_spent_calories` raises
`ZeroDivisionError`, whatever its duration. -/
theorem claim_C7_zero_raises (a d w hgt lp cp a2 d2 w2 b : ℚ)
    (hd : d = 0) (hb : b = 0) :
    get_mean_speed (.training ⟨a, d, w⟩) = .error .zeroDivisionError ∧
    get_mean_speed (.running ⟨a, d, w⟩) = .error .zeroDivisionError ∧
    get_mean_speed (.sportsWalking ⟨⟨a, d, w⟩, hgt⟩) =
      .error .zeroDivisionError ∧
    get_mean_speed (.swimming ⟨⟨a, d, w⟩, lp, cp⟩) =
      .error .zeroDivisionError ∧
    get_spent_calories (.sportsWalking ⟨⟨a2, d2, w2⟩, b⟩) =
      .error .zeroDivisionError := by
  subst hd hb
  refine ⟨?_, ?_, ?_, ?_, ?_⟩
  · simp [get_mean_speed, pydiv, base]
  · simp [get_mean_speed, pydiv, base]
  · simp [get_mean_speed, pydiv, base]
  · simp [get_mean_speed, pydiv, base]
  · by_cases hd2 : d2 = 0 <;>
      simp [get_spent_calories, get_mean_speed, pydiv, hd2, base, Bind.bind,
        Except.bind]

/-- C7 amended witness at duration 0 and height 0. -/
theorem claim_C7_witness :
    get_mean_speed (.training ⟨(15000 : ℚ), 0, 75⟩) =
      .error .zeroDivisionError ∧
    get_mean_speed (.running ⟨(15000 : ℚ), 0, 75⟩) =
      .error .zeroDivisionError ∧
    get_mean_speed (.sportsWalking ⟨⟨(15000 : ℚ), 0, 75⟩, 180⟩) =
      .error .zeroDivisionError ∧
    get_mean_speed (.swimming ⟨⟨(15000 : ℚ), 0, 75⟩, 25, 40⟩) =
      .error .zeroDivisionError ∧
    get_spent_calories (.sportsWalking ⟨⟨(9000 : ℚ), 1, 75⟩, 0⟩) =
      .error .zeroDivisionError :=
  claim_C7_zero_raises 15000 0 75 180 25 40 9000 1 75 0 rfl rfl

/-- C8: on a base `Training` instance, `get_spent_calories` raises
`NotImplementedError` rather than returning a value. -/
theorem claim_C8_abstract_base (a d w : ℚ) :
    get_spent_calories (.training ⟨a, d, w⟩) =
      .error (.notImplementedError
        ("In class \"Training\" is not implemented method " ++
         "\"get_spent_calories\"")) := by
  simp [get_spent_calories]

/-- C9: calling the summary twice in succession (state-passing: the second
call receives the state the first call returned) yields two records whose
five fields are pairwise identical. -/
theorem claim_C9_summary_idempotent (o o2 : TrainingObj) (i : InfoMessage)
    (h : o.show_training_info_st = .ok (i, o2)) :
    ∃ p : InfoMessage × TrainingObj,
      o2.show_training_info_st = .ok p ∧
      p.1.training_type = i.training_type ∧
      p.1.duration = i.duration ∧
      p.1.distance = i.distance ∧
      p.1.speed = i.speed ∧
      p.1.calories = i.calories := by
  cases hinfo : o.show_training_info with
  | error e =>
      rw [show_training_info_st, hinfo] at h
      simp [Except.map] at h
  | ok i0 =>
      rw [show_training_info_st, hinfo] at h
      simp [Except.map] at h
      obtain ⟨hi, ho⟩ := h
      subst hi
      subst ho
      exact ⟨(i0, o), by rw [show_training_info_st, hinfo]; rfl,
             rfl, rfl, rfl, rfl, rfl⟩

/-- C9 witness at `Running ⟨0, 1, 0⟩`. -/
theorem claim_C9_witness :
    ∃ p : InfoMessage × TrainingObj,
      (TrainingObj.running ⟨0, 1, 0⟩).show_training_info_st = .ok p ∧
      p.1.training_type = "Running" ∧
      p.1.duration = (1 : ℚ) ∧
      p.1.distance = (0 : ℚ) ∧
      p.1.speed = (0 : ℚ) ∧
      p.1.calories = (0 : ℚ) :=
  claim_C9_summary_idempotent (.running ⟨0, 1, 0⟩) (.running ⟨0, 1, 0⟩)
    ⟨"Running", 1, 0, 0, 0⟩
    (by simp [show_training_info_st, show_training_info, get_mean_speed,
          get_spent_calories, get_distance, LEN_STEP, base, className,
          M_IN_KM, MIN_IN_H, pydiv, Except.map, Bind.bind, Except.bind,
          Pure.pure, Except.pure])

/-- C10: the summary call leaves the calculator's stored fields unchanged:
the state it returns alongside the record equals the state before the
call. -/
theorem claim_C10_summary_frame (o : TrainingObj)
    (p : InfoMessage × TrainingObj) (h : o.show_training_info_st = .ok p) :
    p.2 = o := by
  cases hinfo : o.show_training_info with
  | error e =>
      rw [show_training_info_st, hinfo] at h
      simp [Except.map] at h
  | ok i0 =>
      rw [show_training_info_st, hinfo] at h
      simp [Except.map] at h
      rw [← h]

/-- C10 witness at `Running ⟨0, 1, 0⟩`. -/
theorem claim_C10_witness :
    (⟨⟨"Running", 1, 0, 0, 0⟩, TrainingObj.running ⟨0, 1, 0⟩⟩ :
        InfoMessage × TrainingObj).2 = TrainingObj.running ⟨0, 1, 0⟩ :=
  claim_C10_summary_frame (.running ⟨0, 1, 0⟩)
    ⟨⟨"Running", 1, 0, 0, 0⟩, .running ⟨0, 1, 0⟩⟩
    (by simp [show_training_info_st, show_training_info, get_mean_speed,
          get_spent_calories, get_distance, LEN_STEP, base, className,
          M_IN_KM, MIN_IN_H, pydiv, Except.map, Bind.bind, Except.bind,
          Pure.pure, Except.pure])
